import Mathlib

/-!
Shallow embedding of `crates/anvil/src/eth/backend/mem/inspector.rs`:
the anvil execution-inspection multiplexer (`Inspector`) fanning lifecycle
events out to an optional structured-trace recorder and an always-present
console-log collector, plus the `print_logs` emission helper.

The observer capabilities (`TracingInspector`, `LogCollector`) and the
`call_inspectors!` dispatch macro live in `crates/evm` of the repository,
which is not part of the provided sources; following the specification they
are embedded as opaque hook providers (`Hooks`) over abstract state types,
and the macro as in-order dispatch over the listed slots, skipping absent
ones.  Machine-level types (`Address`, `B256`, `Bytes`, `Gas`) are embedded
as the values the multiplexer actually inspects: the multiplexer performs no
arithmetic on them, it only constructs `Gas::new(limit)` and empty `Bytes`
and passes everything else through.
-/

set_option autoImplicit false

/-- `revm::primitives::Address` — opaque to the multiplexer. -/
abbrev Address : Type := Nat

/-- `revm::primitives::B256` — opaque to the multiplexer. -/
abbrev B256 : Type := Nat

/-- `revm::primitives::Bytes` — a byte string. -/
abbrev Bytes : Type := List Nat

/-- `Bytes::new()` — the empty byte string. -/
def Bytes.new : Bytes := []

/-- `revm::interpreter::InstructionResult` (the variants the multiplexer
touches; it only ever constructs `Continue` and passes others through). -/
inductive InstructionResult : Type
  | Continue : InstructionResult
  | Stop : InstructionResult
  | Return : InstructionResult
  | Revert : InstructionResult
  | OutOfGas : InstructionResult
  deriving DecidableEq

/-- `revm::interpreter::Gas` — gas record; the multiplexer only builds
`Gas::new(limit)` and forwards `Gas` values unchanged. -/
structure Gas : Type where
  limit : Nat
  remaining : Nat
  refunded : Int
  deriving DecidableEq

/-- `Gas::new(limit)` — a fresh gas record carrying the given limit. -/
def Gas.new (limit : Nat) : Gas :=
  { limit := limit, remaining := limit, refunded := 0 }

/-- `revm::interpreter::CallInputs` — the fields the multiplexer reads. -/
structure CallInputs : Type where
  contract : Address
  input : Bytes
  gas_limit : Nat
  deriving DecidableEq

/-- `revm::interpreter::CreateInputs` — the fields the multiplexer reads. -/
structure CreateInputs : Type where
  caller : Address
  init_code : Bytes
  gas_limit : Nat
  deriving DecidableEq

/-- `ethers::types::Log` — a raw captured log record. -/
structure Log : Type where
  address : Address
  topics : List B256
  data : Bytes
  deriving DecidableEq

/-- The two observer slots declared by the multiplexer, in declared order. -/
inductive ObserverId : Type
  | tracer : ObserverId
  | logCollector : ObserverId
  deriving DecidableEq

/-- The eight lifecycle hooks of the `revm::Inspector` interface. -/
inductive HookName : Type
  | initialize_interp : HookName
  | step : HookName
  | step_end : HookName
  | log : HookName
  | call : HookName
  | call_end : HookName
  | create : HookName
  | create_end : HookName
  deriving DecidableEq

/-- Instrumentation event: observer `obs`'s hook `hook` was invoked. -/
structure Invocation : Type where
  obs : ObserverId
  hook : HookName
  deriving DecidableEq

/-- Modelled from the spec: the lifecycle-hook interface of an Observer
Capability (`revm::Inspector` as implemented by `TracingInspector` /
`LogCollector` in `crates/evm`, not under the provided sources).  `S` is the
observer's opaque internal state, `I` the interpreter handle, `K` the
execution-context handle; hooks may mutate all of them (they are `&mut` in
the source), and the call/create hooks additionally return an outcome which
the multiplexer discards. -/
structure Hooks (S I K : Type) : Type where
  initialize_interp : S → I → K → S × I × K
  step : S → I → K → S × I × K
  step_end : S → I → K → S × I × K
  log : S → K → Address → List B256 → Bytes → S × K
  call : S → K → CallInputs → S × K × (InstructionResult × Gas × Bytes)
  call_end : S → K → CallInputs → Gas → InstructionResult → Bytes →
    S × K × (InstructionResult × Gas × Bytes)
  create : S → K → CreateInputs →
    S × K × (InstructionResult × Option Address × Gas × Bytes)
  create_end : S → K → CreateInputs → InstructionResult → Option Address →
    Gas → Bytes → S × K × (InstructionResult × Option Address × Gas × Bytes)

/-- The anvil `Inspector` multiplexer: an optional trace recorder and an
always-present console-log collector.  `T` is the tracer's state type, `L`
the log collector's. -/
structure Inspector (T L : Type) : Type where
  tracer : Option T
  log_collector : L
  deriving DecidableEq

/-- Result of a step-family hook dispatch (`initialize_interp`, `step`,
`step_end`): updated multiplexer, interpreter and context, plus the
instrumented list of observer invocations in the order they ran. -/
structure StepResult (T L I K : Type) : Type where
  self : Inspector T L
  interp : I
  ctx : K
  invs : List Invocation
  deriving DecidableEq

/-- Result of a `log` dispatch. -/
structure LogResult (T L K : Type) : Type where
  self : Inspector T L
  ctx : K
  invs : List Invocation
  deriving DecidableEq

/-- Result of a `call` / `call_end` dispatch: includes the Dispatch Outcome
the multiplexer returns to the VM. -/
structure CallResult (T L K : Type) : Type where
  self : Inspector T L
  ctx : K
  outcome : InstructionResult × Gas × Bytes
  invs : List Invocation
  deriving DecidableEq

/-- Result of a `create` / `create_end` dispatch. -/
structure CreateResult (T L K : Type) : Type where
  self : Inspector T L
  ctx : K
  outcome : InstructionResult × Option Address × Gas × Bytes
  invs : List Invocation
  deriving DecidableEq

variable {T L I K : Type}

/-- `Inspector::initialize_interp`: `call_inspectors!([&mut self.tracer], ..)`. -/
def Inspector.initialize_interp (th : Hooks T I K) (self : Inspector T L)
    (interp : I) (data : K) : StepResult T L I K :=
  match self.tracer with
  | some t =>
      let (t1, i1, c1) := th.initialize_interp t interp data
      ⟨{ self with tracer := some t1 }, i1, c1,
        [⟨.tracer, .initialize_interp⟩]⟩
  | none => ⟨self, interp, data, []⟩

/-- `Inspector::step`: `call_inspectors!([&mut self.tracer], ..)`. -/
def Inspector.step (th : Hooks T I K) (self : Inspector T L)
    (interp : I) (data : K) : StepResult T L I K :=
  match self.tracer with
  | some t =>
      let (t1, i1, c1) := th.step t interp data
      ⟨{ self with tracer := some t1 }, i1, c1, [⟨.tracer, .step⟩]⟩
  | none => ⟨self, interp, data, []⟩

/-- `Inspector::step_end`: `call_inspectors!([&mut self.tracer], ..)`. -/
def Inspector.step_end (th : Hooks T I K) (self : Inspector T L)
    (interp : I) (data : K) : StepResult T L I K :=
  match self.tracer with
  | some t =>
      let (t1, i1, c1) := th.step_end t interp data
      ⟨{ self with tracer := some t1 }, i1, c1, [⟨.tracer, .step_end⟩]⟩
  | none => ⟨self, interp, data, []⟩

/-- `Inspector::log`:
`call_inspectors!([&mut self.tracer, Some(&mut self.log_collector)], ..)`. -/
def Inspector.log (th : Hooks T I K) (lh : Hooks L I K) (self : Inspector T L)
    (evm_data : K) (address : Address) (topics : List B256) (data : Bytes) :
    LogResult T L K :=
  match self.tracer with
  | some t =>
      let (t1, c1) := th.log t evm_data address topics data
      let (l1, c2) := lh.log self.log_collector c1 address topics data
      ⟨⟨some t1, l1⟩, c2, [⟨.tracer, .log⟩, ⟨.logCollector, .log⟩]⟩
  | none =>
      let (l1, c1) := lh.log self.log_collector evm_data address topics data
      ⟨⟨none, l1⟩, c1, [⟨.logCollector, .log⟩]⟩

/-- `Inspector::call`: fan-out to
`[&mut self.tracer, Some(&mut self.log_collector)]`, each hook's proposed
outcome discarded, then return
`(InstructionResult::Continue, Gas::new(call.gas_limit), Bytes::new())`. -/
def Inspector.call (th : Hooks T I K) (lh : Hooks L I K) (self : Inspector T L)
    (data : K) (call : CallInputs) : CallResult T L K :=
  match self.tracer with
  | some t =>
      let (t1, c1, _) := th.call t data call
      let (l1, c2, _) := lh.call self.log_collector c1 call
      ⟨⟨some t1, l1⟩, c2,
        (InstructionResult.Continue, Gas.new call.gas_limit, Bytes.new),
        [⟨.tracer, .call⟩, ⟨.logCollector, .call⟩]⟩
  | none =>
      let (l1, c1, _) := lh.call self.log_collector data call
      ⟨⟨none, l1⟩, c1,
        (InstructionResult.Continue, Gas.new call.gas_limit, Bytes.new),
        [⟨.logCollector, .call⟩]⟩

/-- `Inspector::call_end`: fan-out to `[&mut self.tracer]` with a clone of
`out`, then return `(ret, remaining_gas, out)` unchanged. -/
def Inspector.call_end (th : Hooks T I K) (self : Inspector T L) (data : K)
    (inputs : CallInputs) (remaining_gas : Gas) (ret : InstructionResult)
    (out : Bytes) : CallResult T L K :=
  match self.tracer with
  | some t =>
      let (t1, c1, _) := th.call_end t data inputs remaining_gas ret out
      ⟨{ self with tracer := some t1 }, c1, (ret, remaining_gas, out),
        [⟨.tracer, .call_end⟩]⟩
  | none => ⟨self, data, (ret, remaining_gas, out), []⟩

/-- `Inspector::create`: fan-out to `[&mut self.tracer]`, proposed outcome
discarded, then return
`(InstructionResult::Continue, None, Gas::new(call.gas_limit), Bytes::new())`. -/
def Inspector.create (th : Hooks T I K) (self : Inspector T L)
    (data : K) (call : CreateInputs) : CreateResult T L K :=
  match self.tracer with
  | some t =>
      let (t1, c1, _) := th.create t data call
      ⟨{ self with tracer := some t1 }, c1,
        (InstructionResult.Continue, none, Gas.new call.gas_limit, Bytes.new),
        [⟨.tracer, .create⟩]⟩
  | none =>
      ⟨self, data,
        (InstructionResult.Continue, none, Gas.new call.gas_limit, Bytes.new),
        []⟩

/-- `Inspector::create_end`: fan-out to `[&mut self.tracer]` with a clone of
`retdata`, then return `(status, address, gas, retdata)` unchanged. -/
def Inspector.create_end (th : Hooks T I K) (self : Inspector T L) (data : K)
    (inputs : CreateInputs) (status : InstructionResult)
    (address : Option Address) (gas : Gas) (retdata : Bytes) :
    CreateResult T L K :=
  match self.tracer with
  | some t =>
      let (t1, c1, _) := th.create_end t data inputs status address gas retdata
      ⟨{ self with tracer := some t1 }, c1, (status, address, gas, retdata),
        [⟨.tracer, .create_end⟩]⟩
  | none => ⟨self, data, (status, address, gas, retdata), []⟩

/-- `Inspector::with_tracing`: installs/replaces the tracer slot with the
default full-tracing recorder.  `default_tracer` stands for
`TracingInspector::new(TracingInspectorConfig::all())`, whose construction
lives in `crates/evm` (not under the provided sources) and is opaque here. -/
def Inspector.with_tracing (default_tracer : T) (self : Inspector T L) :
    Inspector T L :=
  { self with tracer := some default_tracer }

/-- `Inspector::with_steps_tracing`: `self.with_tracing()`. -/
def Inspector.with_steps_tracing (default_tracer : T) (self : Inspector T L) :
    Inspector T L :=
  self.with_tracing default_tracer

/-- Modelled from the spec: `foundry_evm::decode::decode_console_logs`
(in `crates/evm`, not under the provided sources) decodes each raw record
with a per-record decoder and omits records the decoder cannot interpret. -/
def decode_console_logs (decoder : Log → Option String) (logs : List Log) :
    List String :=
  logs.filterMap decoder

/-- `print_logs`: decodes the records and emits each decoded line, in order,
to the append-only diagnostic sink (`node_info!`); the sink is embedded as
the list of lines appended to it. -/
def print_logs (decoder : Log → Option String) (logs : List Log) :
    List String :=
  (decode_console_logs decoder logs).foldl (fun sink line => sink ++ [line]) []

/-- Concrete counting observer: every hook bumps a `Nat` state by one.  Its
call/create hooks propose a non-neutral outcome, which the multiplexer must
discard. -/
def countHooks : Hooks Nat Unit Unit where
  initialize_interp := fun s i c => (s + 1, i, c)
  step := fun s i c => (s + 1, i, c)
  step_end := fun s i c => (s + 1, i, c)
  log := fun s c _ _ _ => (s + 1, c)
  call := fun s c _ => (s + 1, c, (InstructionResult.Stop, Gas.new 0, []))
  call_end := fun s c _ _ _ _ =>
    (s + 1, c, (InstructionResult.Stop, Gas.new 0, []))
  create := fun s c _ =>
    (s + 1, c, (InstructionResult.Stop, some 0, Gas.new 0, []))
  create_end := fun s c _ _ _ _ _ =>
    (s + 1, c, (InstructionResult.Stop, some 0, Gas.new 0, []))

/-- Concrete recording log-collector: its `log` hook appends the exact
arguments it received; every other hook is a no-op. -/
def recordHooks : Hooks (List (Address × List B256 × Bytes)) Unit Unit where
  initialize_interp := fun s i c => (s, i, c)
  step := fun s i c => (s, i, c)
  step_end := fun s i c => (s, i, c)
  log := fun s c a ts d => (s ++ [(a, ts, d)], c)
  call := fun s c _ => (s, c, (InstructionResult.Continue, Gas.new 0, []))
  call_end := fun s c _ g r o => (s, c, (r, g, o))
  create := fun s c _ =>
    (s, c, (InstructionResult.Continue, none, Gas.new 0, []))
  create_end := fun s c _ r a g o => (s, c, (r, a, g, o))

/-- Dispatch list contributed by the optional tracer slot for hook `h`. -/
def tracerInvs {T L : Type} (self : Inspector T L) (h : HookName) :
    List Invocation :=
  match self.tracer with
  | some _ => [⟨.tracer, h⟩]
  | none => []

/-- C1: every `call` (resp. `create`) entry dispatch, for any observer slot
configuration and any observer hook behaviour, returns the neutral outcome:
`Continue`, `Gas::new` of the gas limit carried in the inputs, empty output,
and (for create) no created address. -/
theorem call_create_entry_neutral (th : Hooks T I K) (lh : Hooks L I K)
    (self : Inspector T L) (data : K) (c : CallInputs) (cr : CreateInputs) :
    (Inspector.call th lh self data c).outcome =
      (InstructionResult.Continue, Gas.new c.gas_limit, Bytes.new) ∧
    (Inspector.create th self data cr).outcome =
      (InstructionResult.Continue, none, Gas.new cr.gas_limit, Bytes.new) := by
  rcases self with ⟨t, lc⟩
  cases t <;> exact ⟨rfl, rfl⟩

/-- C2: `call_end` (resp. `create_end`) returns exactly the outcome tuple it
was given, whatever the observer hooks do or propose; and when the tracer is
present, its hook is applied to precisely the given arguments, including the
very output value that is returned (the source hands it a clone, which in
this value-level embedding is the identical value). -/
theorem call_create_exit_passthrough (th : Hooks T I K) (self : Inspector T L)
    (data : K) (inputs : CallInputs) (remaining_gas : Gas)
    (ret : InstructionResult) (out : Bytes) (cin : CreateInputs)
    (status : InstructionResult) (address : Option Address) (gas : Gas)
    (retdata : Bytes) :
    (Inspector.call_end th self data inputs remaining_gas ret out).outcome =
      (ret, remaining_gas, out) ∧
    (Inspector.create_end th self data cin status address gas
        retdata).outcome = (status, address, gas, retdata) ∧
    (∀ t : T, (Inspector.call_end th ⟨some t, self.log_collector⟩ data inputs
        remaining_gas ret out).self.tracer =
      some (th.call_end t data inputs remaining_gas ret out).1) ∧
    (∀ t : T, (Inspector.create_end th ⟨some t, self.log_collector⟩ data cin
        status address gas retdata).self.tracer =
      some (th.create_end t data cin status address gas retdata).1) := by
  rcases self with ⟨t, lc⟩
  refine ⟨?_, ?_, fun t' => rfl, fun t' => rfl⟩ <;> cases t <;> rfl

/-- C3 counterexample: the claim "every one of the eight hook methods invokes
each present observer's corresponding hook" is false at the `step` hook: with
both slots present (tracer installed, log collector always present), a `step`
dispatch never invokes the log collector's `step` hook. -/
theorem step_skips_log_collector :
    Invocation.mk ObserverId.logCollector HookName.step ∉
      (Inspector.step countHooks (Inspector.mk (some 0) (0 : Nat)) ()
        ()).invs := by
  decide

/-- C3 (amended): each hook method invokes, in the fixed declared order,
exactly the present observers on that hook's dispatch list — the tracer
(when present) for all eight hooks, with the log collector additionally
invoked for `log` and `call` only — each exactly once, and never an absent
observer. -/
theorem dispatch_fanout_order (th : Hooks T I K) (lh : Hooks L I K)
    (self : Inspector T L) (interp : I) (ctx : K) (address : Address)
    (topics : List B256) (bs : Bytes) (c : CallInputs) (cr : CreateInputs)
    (remaining_gas : Gas) (ret : InstructionResult)
    (created : Option Address) :
    (Inspector.initialize_interp th self interp ctx).invs =
      tracerInvs self HookName.initialize_interp ∧
    (Inspector.step th self interp ctx).invs =
      tracerInvs self HookName.step ∧
    (Inspector.step_end th self interp ctx).invs =
      tracerInvs self HookName.step_end ∧
    (Inspector.log th lh self ctx address topics bs).invs =
      tracerInvs self HookName.log ++ [⟨.logCollector, .log⟩] ∧
    (Inspector.call th lh self ctx c).invs =
      tracerInvs self HookName.call ++ [⟨.logCollector, .call⟩] ∧
    (Inspector.call_end th self ctx c remaining_gas ret bs).invs =
      tracerInvs self HookName.call_end ∧
    (Inspector.create th self ctx cr).invs =
      tracerInvs self HookName.create ∧
    (Inspector.create_end th self ctx cr ret created remaining_gas bs).invs =
      tracerInvs self HookName.create_end := by
  rcases self with ⟨t, lc⟩
  cases t <;> exact ⟨rfl, rfl, rfl, rfl, rfl, rfl, rfl, rfl⟩

/-- Folding snoc onto an accumulator appends the whole list. -/
theorem foldl_snoc_eq_append (l acc : List String) :
    l.foldl (fun sink line => sink ++ [line]) acc = acc ++ l := by
  induction l generalizing acc with
  | nil => simp
  | cons x xs ih => simp [List.foldl, ih]

/-- C4: for any decoder and any record sequence, `print_logs` emits exactly
the decodable records' decoded lines, in their original relative order
(i.e. the per-record `filterMap` of the sequence); the number of emitted
lines equals the number of decodable records; and a non-decodable record is
silently dropped without terminating emission (records after it are still
attempted). -/
theorem print_logs_decodable_lines (decoder : Log → Option String)
    (logs : List Log) :
    print_logs decoder logs = logs.filterMap decoder ∧
    (print_logs decoder logs).length =
      (logs.filter fun l => (decoder l).isSome).length ∧
    (∀ pre post bad, decoder bad = none →
      print_logs decoder (pre ++ bad :: post) =
        print_logs decoder (pre ++ post)) := by
  have hpl : ∀ ls : List Log,
      print_logs decoder ls = ls.filterMap decoder := by
    intro ls
    simpa [print_logs, decode_console_logs] using
      foldl_snoc_eq_append (ls.filterMap decoder) []
  refine ⟨hpl logs, ?_, ?_⟩
  · rw [hpl]
    induction logs with
    | nil => rfl
    | cons x xs ih =>
      cases h : decoder x <;>
        simp [List.filterMap_cons, List.filter_cons, h, ih]
  · intro pre post bad hbad
    rw [hpl, hpl]
    simp [List.filterMap_append, List.filterMap_cons, hbad]

/-- A concrete decoder for the emission scenario: record at address 2 is not
decodable, the others are. -/
def demoDecoder (l : Log) : Option String :=
  if l.address = 2 then none
  else if l.address = 1 then some "first" else some "third"

/-- C4 witness: three records of which the second is non-decodable — exactly
two lines are emitted, those of records 1 and 3 in that order, and dropping
the bad record is indistinguishable from its absence. -/
theorem print_logs_decodable_lines_witness :
    demoDecoder ⟨2, [], []⟩ = none ∧
    print_logs demoDecoder ([⟨1, [], []⟩] ++ ⟨2, [], []⟩ :: [⟨3, [], []⟩]) =
      print_logs demoDecoder ([⟨1, [], []⟩] ++ [⟨3, [], []⟩]) ∧
    print_logs demoDecoder [⟨1, [], []⟩, ⟨2, [], []⟩, ⟨3, [], []⟩] =
      ["first", "third"] :=
  ⟨rfl,
    (print_logs_decodable_lines demoDecoder
        [⟨1, [], []⟩, ⟨2, [], []⟩, ⟨3, [], []⟩]).2.2
      [⟨1, [], []⟩] [⟨3, [], []⟩] ⟨2, [], []⟩ rfl,
    rfl⟩

/-- C5: with both observer slots active, one `call` dispatch at gas limit
21000 returns `(Continue, Gas::new(21000), empty)`, invokes the tracer's and
the log collector's `call` hooks once each with the tracer first (each
counting observer state goes from 0 to 1), even though both hooks proposed a
non-neutral outcome. -/
theorem call_scenario_both_observers :
    (Inspector.call countHooks countHooks (Inspector.mk (some 0) (0 : Nat))
        () ⟨5, [], 21000⟩).outcome =
      (InstructionResult.Continue, Gas.new 21000, Bytes.new) ∧
    (Inspector.call countHooks countHooks (Inspector.mk (some 0) (0 : Nat))
        () ⟨5, [], 21000⟩).invs =
      [⟨.tracer, .call⟩, ⟨.logCollector, .call⟩] ∧
    (Inspector.call countHooks countHooks (Inspector.mk (some 0) (0 : Nat))
        () ⟨5, [], 21000⟩).self = Inspector.mk (some 1) 1 :=
  ⟨rfl, rfl, rfl⟩

/-- C6: with the tracer slot absent, a `log` dispatch with address 7, topics
`[9]` and data `[1, 2]` invokes only the log collector's `log` hook, passing
exactly those arguments; the tracer slot stays absent and contributes no
invocation. -/
theorem log_scenario_no_tracer :
    (Inspector.log countHooks recordHooks
        (Inspector.mk (none : Option Nat)
          ([] : List (Address × List B256 × Bytes))) () 7 [9]
        [1, 2]).self.log_collector = [(7, [9], [1, 2])] ∧
    (Inspector.log countHooks recordHooks
        (Inspector.mk (none : Option Nat)
          ([] : List (Address × List B256 × Bytes))) () 7 [9]
        [1, 2]).self.tracer = none ∧
    (Inspector.log countHooks recordHooks
        (Inspector.mk (none : Option Nat)
          ([] : List (Address × List B256 × Bytes))) () 7 [9]
        [1, 2]).invs = [⟨.logCollector, .log⟩] :=
  ⟨rfl, rfl, rfl⟩

/-- C7: no hook dispatch changes the presence of the tracer slot (nor can
any remove the log collector, which is a mandatory field): slot
configuration is fixed outside the hook methods. -/
theorem slot_presence_invariant (th : Hooks T I K) (lh : Hooks L I K)
    (self : Inspector T L) (interp : I) (ctx : K) (address : Address)
    (topics : List B256) (bs : Bytes) (c : CallInputs) (cr : CreateInputs)
    (remaining_gas : Gas) (ret : InstructionResult)
    (created : Option Address) :
    (Inspector.initialize_interp th self interp ctx).self.tracer.isSome =
      self.tracer.isSome ∧
    (Inspector.step th self interp ctx).self.tracer.isSome =
      self.tracer.isSome ∧
    (Inspector.step_end th self interp ctx).self.tracer.isSome =
      self.tracer.isSome ∧
    (Inspector.log th lh self ctx address topics bs).self.tracer.isSome =
      self.tracer.isSome ∧
    (Inspector.call th lh self ctx c).self.tracer.isSome =
      self.tracer.isSome ∧
    (Inspector.call_end th self ctx c remaining_gas ret
        bs).self.tracer.isSome = self.tracer.isSome ∧
    (Inspector.create th self ctx cr).self.tracer.isSome =
      self.tracer.isSome ∧
    (Inspector.create_end th self ctx cr ret created remaining_gas
        bs).self.tracer.isSome = self.tracer.isSome := by
  rcases self with ⟨t, lc⟩
  cases t <;> exact ⟨rfl, rfl, rfl, rfl, rfl, rfl, rfl, rfl⟩

/-- C8: `with_tracing` installs/replaces the tracer slot with the default
full-tracing recorder and leaves the log collector (the only other field)
unchanged; it is a pure function with no other effect. -/
theorem with_tracing_installs_tracer (default_tracer : T)
    (self : Inspector T L) :
    (Inspector.with_tracing default_tracer self).tracer =
      some default_tracer ∧
    (Inspector.with_tracing default_tracer self).log_collector =
      self.log_collector :=
  ⟨rfl, rfl⟩

/-- C9: with no tracer present, `step` and `step_end` are complete no-ops:
the multiplexer, interpreter and context come back unchanged and no observer
hook is invoked. -/
theorem step_noop_without_tracer (th : Hooks T I K) (self : Inspector T L)
    (interp : I) (ctx : K) (h : self.tracer = none) :
    Inspector.step th self interp ctx = ⟨self, interp, ctx, []⟩ ∧
    Inspector.step_end th self interp ctx = ⟨self, interp, ctx, []⟩ := by
  rcases self with ⟨t, lc⟩
  cases t with
  | none => exact ⟨rfl, rfl⟩
  | some t => exact Option.noConfusion h

/-- C9 witness: the no-op behaviour at a concrete tracer-less multiplexer. -/
theorem step_noop_without_tracer_witness :
    (Inspector.mk (none : Option Nat) (0 : Nat)).tracer = none ∧
    Inspector.step countHooks (Inspector.mk (none : Option Nat) (0 : Nat))
        () () = ⟨Inspector.mk none 0, (), (), []⟩ :=
  ⟨rfl, (step_noop_without_tracer countHooks (Inspector.mk none 0) () ()
    rfl).1⟩

/-- C10: `with_steps_tracing` is extensionally (indeed definitionally) equal
to `with_tracing`: it enables nothing beyond what `with_tracing`
configures. -/
theorem with_steps_tracing_eq_with_tracing (default_tracer : T)
    (self : Inspector T L) :
    Inspector.with_steps_tracing default_tracer self =
      Inspector.with_tracing default_tracer self :=
  rfl
